import Mathlib

/-!
Shallow embedding of the Newsletter-app repository (FastAPI + SQLAlchemy +
boto3 S3 adapter) for checking its natural-language specification.

Sources embedded:
  * src/models.py   — the `Newsletter` and `Template` records (SQLAlchemy
    columns; all scalar columns are nullable except the primary key, so they
    are modelled as `Option`).
  * src/schemas.py  — `NewsletterUpdate`, the partial-update payload
    (pydantic; `dict(exclude_unset=True)` distinguishes "omitted" from
    "explicitly set to null", modelled by `Patch`).
  * src/s3_config.py — `upload_file_to_s3` / `delete_file_from_s3`.  They
    catch only `botocore.exceptions.ClientError`; any other exception from
    the boto3 call propagates.  A Python call that may raise is modelled as
    `Except String α` (`.error msg` = an uncaught exception carrying
    `str(e) = msg`).
  * src/main.py     — the request handlers named in the claims.

The outside world (clocks, the S3 service) is an `Env` record passed in;
the database session is explicit state (`DB`), with commit = replacing the
state and rollback = returning the incoming state unchanged.  Each handler
also returns the list of S3 calls it performed, so "the blob was deleted /
uploaded" is observable.
-/

namespace NewsApp

/-- `fastapi.HTTPException`: a status code and a `detail` string. -/
structure HttpError where
  status : Nat
  detail : String
deriving DecidableEq, Repr

/-- A Python exception value as the handlers see it: either an
`HTTPException` or some other exception carrying its message. -/
inductive PyExn where
  | http (status : Nat) (detail : String)
  | other (msg : String)
deriving DecidableEq, Repr

/-- Python `str(e)`.  For starlette/fastapi `HTTPException`,
`str(e) = f"{status_code}: {detail}"`; for a generic exception it is its
message. -/
def PyExn.str : PyExn → String
  | .http s d => toString s ++ ": " ++ d
  | .other m => m

/-- Row of the `newsletters` table (src/models.py lines 6-20).  Every
non-key column is nullable at the schema level (`nullable=False` is never
set), hence `Option`.  Timestamps are opaque ticks. -/
structure Newsletter where
  id : Nat
  title : Option String
  content : Option String
  status : Option String
  scheduled_date : Option Nat
  created_at : Nat
  updated_at : Nat
  image_url : Option String
  template_id : Option Nat
deriving DecidableEq, Repr

/-- Row of the `templates` table (src/models.py lines 22-31). -/
structure Template where
  id : Nat
  name : Option String
  content : Option String
  created_at : Nat
  updated_at : Nat
deriving DecidableEq, Repr

/-- The relational store: the two tables the handlers touch, plus the
autoincrement counter for newsletter ids. -/
structure DB where
  newsletters : List Newsletter
  templates : List Template
  nextNewsletterId : Nat
deriving DecidableEq, Repr

/-- Outcome of the underlying boto3 call (`upload_fileobj` /
`delete_object`): it either succeeds, raises a
`botocore.exceptions.ClientError`, or raises some other exception
(e.g. `EndpointConnectionError`, `S3UploadFailedError`), carrying
`str(e)`. -/
inductive S3CallResult where
  | success
  | clientError (msg : String)
  | otherExn (msg : String)
deriving DecidableEq, Repr

/-- Outcome of `s3.get_object` in `get_newsletter_image`: the response
body and its `ContentType`, or a raised exception. -/
inductive GetObjectResult where
  | ok (body : String) (contentType : String)
  | exn (msg : String)
deriving DecidableEq, Repr

/-- One S3 call made by a handler, with the key it was made on. -/
inductive S3Event where
  | upload (key : String)
  | delete (key : String)
  | getObject (key : String)
deriving DecidableEq, Repr

/-- A multipart `UploadFile`: its client-supplied filename and declared
content type. -/
structure UploadFile where
  filename : String
  content_type : String
deriving DecidableEq, Repr

/-- The ambient world of one request: S3 configuration and behaviour, and
the process clock.  `localNow` is `datetime.now().strftime('%Y%m%d_%H%M%S')`
(server-local time); `utcNow` is the same rendering of `datetime.utcnow()`
— the source only ever reads `localNow`.  `now` is the tick stored into
`created_at` / `updated_at` columns. -/
structure Env where
  bucket : String
  region : String
  uploadCall : S3CallResult
  deleteCall : S3CallResult
  getObject : GetObjectResult
  localNow : String
  utcNow : String
  now : Nat
deriving DecidableEq, Repr

/-- `upload_file_to_s3` (src/s3_config.py lines 29-43): perform the boto3
upload; on success return the public URL; a `ClientError` is caught and
converted to the sentinel `none`; any other exception propagates. -/
def upload_file_to_s3 (call : S3CallResult) (bucket region file_name : String) :
    Except String (Option String) :=
  match call with
  | .success =>
      .ok (some ("https://" ++ bucket ++ ".s3." ++ region ++ ".amazonaws.com/" ++ file_name))
  | .clientError _ => .ok none
  | .otherExn m => .error m

/-- `delete_file_from_s3` (src/s3_config.py lines 45-57): perform the boto3
delete; return `true` on success; a `ClientError` is caught and converted
to `false`; any other exception propagates. -/
def delete_file_from_s3 (call : S3CallResult) (_file_name : String) :
    Except String Bool :=
  match call with
  | .success => .ok true
  | .clientError _ => .ok false
  | .otherExn m => .error m

/-- Python truthiness of a nullable string column: `None` and `""` are
falsy (`if newsletter.image_url:`). -/
def pyTruthy : Option String → Bool
  | none => false
  | some s => s ≠ ""

/-- `url.split('/')[-1]`: the trailing path segment — the characters after
the last separator (for a string with no '/' this is the whole string,
matching Python, whose `split` always returns a non-empty list).  Computed
as a fold that restarts at every '/'. -/
def lastSegment (s : String) : String :=
  String.mk (s.toList.foldl (fun acc ch => if ch = '/' then [] else acc ++ [ch]) [])

/-- Python `str.lower()` as applied to filename extensions: character-wise
lowercasing. -/
def strLower (s : String) : String :=
  String.mk (s.toList.map Char.toLower)

/-- Index of the last occurrence of `c` in `cs`, if any. -/
def lastIdx (c : Char) (cs : List Char) : Option Nat :=
  (List.range cs.length).foldl
    (fun acc i => if cs.get? i = some c then some i else acc) none

/-- The extension part of `os.path.splitext(p)[1]` (posixpath): the suffix
from the last dot, provided that dot lies after the last path separator
and at least one character strictly between the separator and the dot is
not itself a dot (so ".gif" has no extension). -/
def splitext_ext (p : String) : String :=
  let cs := p.toList
  let sepIdx : Int := match lastIdx '/' cs with | some i => (i : Int) | none => -1
  let dotIdx : Int := match lastIdx '.' cs with | some i => (i : Int) | none => -1
  if dotIdx > sepIdx then
    let start := (sepIdx + 1).toNat
    let stop := dotIdx.toNat
    if (List.range (stop - start)).any (fun k => cs.get? (start + k) ≠ some '.') then
      String.mk (cs.drop stop)
    else ""
  else ""

/-- Look up a newsletter row by id (`query(...).filter(id == nid).first()`). -/
def findNewsletter (db : DB) (nid : Nat) : Option Newsletter :=
  db.newsletters.find? (fun n => n.id = nid)

/-- Look up a template row by id. -/
def findTemplate (db : DB) (tid : Nat) : Option Template :=
  db.templates.find? (fun t => t.id = tid)

/-- Replace the row with `n.id` by `n` (an UPDATE at commit). -/
def replaceNewsletter (db : DB) (n : Newsletter) : DB :=
  { db with newsletters := db.newsletters.map (fun m => if m.id = n.id then n else m) }

deriving instance DecidableEq for Except

/-- Result of one handler invocation: the HTTP-level result, the database
state after the request (commit applied, or rolled back = unchanged), and
the S3 calls that were made, in order. -/
structure Outcome (α : Type) where
  result : Except HttpError α
  db : DB
  events : List S3Event
deriving DecidableEq, Repr

/-- INSERT of a fresh newsletter row and commit (`db.add`/`db.commit`/
`db.refresh` in `create_newsletter_with_image`; the database write itself is
assumed to succeed — no claim concerns commit failure). -/
def insertCommit (env : Env) (db : DB) (title content status : String)
    (scheduled_date template_id : Option Nat) (image_url : Option String)
    (events : List S3Event) : Outcome Newsletter :=
  let n : Newsletter :=
    { id := db.nextNewsletterId
      title := some title
      content := some content
      status := some status
      scheduled_date := scheduled_date
      created_at := env.now
      updated_at := env.now
      image_url := image_url
      template_id := template_id }
  ⟨.ok n,
   { db with newsletters := db.newsletters ++ [n]
             nextNewsletterId := db.nextNewsletterId + 1 },
   events⟩

/-- `db.commit()` after in-session mutation of an existing row: SQLAlchemy
emits an UPDATE only when some column has a net change, and the
`onupdate=datetime.datetime.utcnow` hook refreshes `updated_at` exactly
when that UPDATE is emitted. -/
def commitUpdated (env : Env) (db : DB) (n_old n_new : Newsletter) :
    Newsletter × DB :=
  if n_new = n_old then (n_old, db)
  else
    let n2 := { n_new with updated_at := env.now }
    (n2, replaceNewsletter db n2)

/-- `create_newsletter_with_image` (src/main.py lines 97-181), POST
/newsletters/with-image/.  Control flow embedded faithfully: the inner
`try` around the image handling catches EVERY exception — including the
`HTTPException(400)` raised by the validation and the `HTTPException(500)`
raised on a sentinel upload failure — and re-raises it as
`HTTPException(500, "Error during file upload: " + str(e))`; the outer
`except HTTPException` then re-raises that unchanged.  No database write
is staged before the image phase completes. -/
def create_newsletter_with_image (env : Env) (db : DB)
    (title content status : String) (scheduled_date : Option Nat)
    (template_id : Option Nat) (image : Option UploadFile) :
    Outcome Newsletter :=
  match image with
  | none =>
      insertCommit env db title content status scheduled_date template_id none []
  | some img =>
      let allowed_types := ["image/jpeg", "image/png"]
      let allowed_extensions := [".jpg", ".jpeg", ".png"]
      let content_type := img.content_type
      let file_extension := strLower (splitext_ext img.filename)
      if content_type ∉ allowed_types ∨ file_extension ∉ allowed_extensions then
        ⟨.error ⟨500, "Error during file upload: " ++
            PyExn.str (.http 400 "Invalid image. Only JPG and PNG formats are supported.")⟩,
         db, []⟩
      else
        let ext2 := splitext_ext img.filename
        let unique_filename := "newsletter_" ++ env.localNow ++ ext2
        match upload_file_to_s3 env.uploadCall env.bucket env.region unique_filename with
        | .ok (some url) =>
            insertCommit env db title content status scheduled_date template_id
              (some url) [S3Event.upload unique_filename]
        | .ok none =>
            ⟨.error ⟨500, "Error during file upload: " ++
                PyExn.str (.http 500 "Failed to upload image to S3. Please check S3 credentials and bucket configuration.")⟩,
             db, [S3Event.upload unique_filename]⟩
        | .error m =>
            ⟨.error ⟨500, "Error during file upload: " ++ m⟩,
             db, [S3Event.upload unique_filename]⟩

/-- `update_newsletter_with_image` (src/main.py lines 207-260), PUT
/newsletters/{id}/with-image/.  The whole body sits in one `try` whose
`except Exception` performs `db.rollback()` and raises
`HTTPException(500, str(e))` — so the `HTTPException(404)` raised for a
missing record is itself caught there and surfaces as a 500.  No
content-type or extension validation is performed on the image.  The old
blob (when the stored `image_url` is truthy) is deleted before the new
upload; the Bool result of that delete is discarded, but an exception it
raises propagates into the `except` block. -/
def update_newsletter_with_image (env : Env) (db : DB) (newsletter_id : Nat)
    (title content status : Option String) (scheduled_date : Option Nat)
    (template_id : Option Nat) (image : Option UploadFile) :
    Outcome Newsletter :=
  match findNewsletter db newsletter_id with
  | none =>
      ⟨.error ⟨500, PyExn.str (.http 404 "Newsletter not found")⟩, db, []⟩
  | some n =>
      let n1 : Newsletter := { n with
        title := match title with | some t => some t | none => n.title
        content := match content with | some c => some c | none => n.content
        status := match status with | some s => some s | none => n.status
        scheduled_date := match scheduled_date with
          | some d => some d | none => n.scheduled_date
        template_id := match template_id with
          | some t => some t | none => n.template_id }
      match image with
      | none =>
          let (n2, db2) := commitUpdated env db n n1
          ⟨.ok n2, db2, []⟩
      | some img =>
          let oldKey := lastSegment (n1.image_url.getD "")
          let oldEvents :=
            if pyTruthy n1.image_url then [S3Event.delete oldKey] else []
          let deleteRaised : Option String :=
            if pyTruthy n1.image_url then
              match delete_file_from_s3 env.deleteCall oldKey with
              | .error m => some m
              | .ok _ => none
            else none
          match deleteRaised with
          | some m => ⟨.error ⟨500, m⟩, db, oldEvents⟩
          | none =>
              let file_extension := splitext_ext img.filename
              let unique_filename := "newsletter_" ++ env.localNow ++ file_extension
              let events := oldEvents ++ [S3Event.upload unique_filename]
              match upload_file_to_s3 env.uploadCall env.bucket env.region unique_filename with
              | .error m => ⟨.error ⟨500, m⟩, db, events⟩
              | .ok none =>
                  ⟨.error ⟨500, PyExn.str (.http 500 "Failed to upload image to S3")⟩,
                   db, events⟩
              | .ok (some url) =>
                  let (n2, db2) := commitUpdated env db n { n1 with image_url := some url }
                  ⟨.ok n2, db2, events⟩

/-- One field of the pydantic `NewsletterUpdate` payload as
`dict(exclude_unset=True)` sees it: absent from the request JSON, or
explicitly set to a value or to null. -/
inductive Patch (α : Type) where
  | absent
  | set (v : Option α)
deriving DecidableEq, Repr

/-- `schemas.NewsletterUpdate`: the JSON partial-update payload; every
field optional and nullable. -/
structure NewsletterUpdate where
  title : Patch String
  content : Patch String
  status : Patch String
  scheduled_date : Patch Nat
  template_id : Patch Nat
  image_url : Patch String
deriving DecidableEq, Repr

/-- The `for key, value in newsletter.dict(exclude_unset=True).items():
setattr(db_newsletter, key, value)` loop: explicitly-set fields (null
included) overwrite, absent fields are untouched. -/
def applyPatch (n : Newsletter) (p : NewsletterUpdate) : Newsletter :=
  { n with
    title := match p.title with | .absent => n.title | .set v => v
    content := match p.content with | .absent => n.content | .set v => v
    status := match p.status with | .absent => n.status | .set v => v
    scheduled_date := match p.scheduled_date with
      | .absent => n.scheduled_date | .set v => v
    template_id := match p.template_id with
      | .absent => n.template_id | .set v => v
    image_url := match p.image_url with
      | .absent => n.image_url | .set v => v }

/-- `update_newsletter` (src/main.py lines 298-309), PUT /newsletters/{id}
(JSON).  No surrounding try/except: the 404 reaches the client as a 404. -/
def update_newsletter (env : Env) (db : DB) (newsletter_id : Nat)
    (newsletter : NewsletterUpdate) : Outcome Newsletter :=
  match findNewsletter db newsletter_id with
  | none => ⟨.error ⟨404, "Newsletter not found"⟩, db, []⟩
  | some n =>
      let (n2, db2) := commitUpdated env db n (applyPatch n newsletter)
      ⟨.ok n2, db2, []⟩

/-- `delete_newsletter` (src/main.py lines 312-325), DELETE
/newsletters/{id}.  If the stored `image_url` is truthy, the blob keyed by
the URL's trailing segment is deleted first; the Bool result is never
inspected, but an exception raised by the adapter escapes the handler
(there is no try/except), the framework answers 500 and no commit
happens. -/
def delete_newsletter (env : Env) (db : DB) (newsletter_id : Nat) :
    Outcome String :=
  match findNewsletter db newsletter_id with
  | none => ⟨.error ⟨404, "Newsletter not found"⟩, db, []⟩
  | some n =>
      let key := lastSegment (n.image_url.getD "")
      let events := if pyTruthy n.image_url then [S3Event.delete key] else []
      let deleteRaised : Option String :=
        if pyTruthy n.image_url then
          match delete_file_from_s3 env.deleteCall key with
          | .error m => some m
          | .ok _ => none
        else none
      match deleteRaised with
      | some m => ⟨.error ⟨500, m⟩, db, events⟩
      | none =>
          ⟨.ok "Newsletter deleted successfully",
           { db with newsletters :=
               db.newsletters.filter (fun m => m.id ≠ newsletter_id) },
           events⟩

/-- `delete_template` (src/main.py lines 62-69) together with the declared
ORM relationship `Template.newsletters = relationship("Newsletter",
back_populates="template")` (src/models.py).  `db.delete(template)` under
SQLAlchemy's default cascade ("save-update, merge" — no "delete",
no `passive_deletes`) de-associates loaded children at flush: every
newsletter row whose `template_id` references the deleted template gets
`template_id` set to NULL via an UPDATE (which fires the `onupdate` hook
on `updated_at`) before the template row is deleted.  Newsletters are NOT
cascade-deleted. -/
def delete_template (env : Env) (db : DB) (template_id : Nat) :
    Outcome String :=
  match findTemplate db template_id with
  | none => ⟨.error ⟨404, "Template not found"⟩, db, []⟩
  | some _ =>
      ⟨.ok "Template deleted successfully",
       { db with
           templates := db.templates.filter (fun t => t.id ≠ template_id)
           newsletters := db.newsletters.map (fun n =>
             if n.template_id = some template_id then
               { n with template_id := none, updated_at := env.now }
             else n) },
       []⟩

/-- The streamed response of GET /newsletters/{id}/image: blob bytes and
the media type taken from the S3 response's `ContentType`. -/
structure ImageStream where
  body : String
  media_type : String
deriving DecidableEq, Repr

/-- `get_newsletter_image` (src/main.py lines 267-284), GET
/newsletters/{id}/image.  404 when the record is absent OR its
`image_url` is falsy (`not newsletter.image_url`: None or the empty
string); otherwise the key is the URL's trailing path segment and
`s3.get_object` is called, any exception becoming a 500. -/
def get_newsletter_image (env : Env) (db : DB) (newsletter_id : Nat) :
    Outcome ImageStream :=
  match findNewsletter db newsletter_id with
  | none => ⟨.error ⟨404, "Image not found"⟩, db, []⟩
  | some n =>
      if pyTruthy n.image_url then
        let filename := lastSegment (n.image_url.getD "")
        match env.getObject with
        | .ok body ct =>
            ⟨.ok ⟨body, ct⟩, db, [S3Event.getObject filename]⟩
        | .exn m =>
            ⟨.error ⟨500, "Failed to stream image: " ++ m⟩, db,
             [S3Event.getObject filename]⟩
      else ⟨.error ⟨404, "Image not found"⟩, db, []⟩

/-! Concrete fixtures used by closed theorems and witnesses. -/

/-- A concrete environment: healthy S3, and a server whose local clock is
five hours behind UTC (`datetime.now()` and `datetime.utcnow()` render
differently). -/
def envFix : Env :=
  { bucket := "bkt"
    region := "reg"
    uploadCall := .success
    deleteCall := .success
    getObject := .ok "BODY" "image/png"
    localNow := "20250101_000000"
    utcNow := "20250101_050000"
    now := 7 }

/-- An empty database. -/
def dbEmpty : DB := { newsletters := [], templates := [], nextNewsletterId := 1 }

/-- A stored newsletter with an image and a template reference. -/
def nFix : Newsletter :=
  { id := 1
    title := some "t"
    content := some "c"
    status := some "draft"
    scheduled_date := none
    created_at := 3
    updated_at := 3
    image_url := some "https://bkt.s3.reg.amazonaws.com/old.png"
    template_id := some 1 }

/-- A database with one newsletter (with image, referencing template 1)
and one template. -/
def dbOne : DB :=
  { newsletters := [nFix]
    templates := [{ id := 1, name := some "Promo", content := some "x",
                    created_at := 2, updated_at := 2 }]
    nextNewsletterId := 2 }

/-- The stored newsletter with an explicitly empty (non-null) `image_url`,
reachable through the JSON update path setting `image_url` to `""`. -/
def nEmptyUrl : Newsletter := { nFix with image_url := some "" }

/-- A database holding only `nEmptyUrl`. -/
def dbEmptyUrl : DB := { dbOne with newsletters := [nEmptyUrl] }

/-- The HTTP status carried by a handler result, when that result is an
error. -/
def errStatus {α : Type} : Except HttpError α → Option Nat
  | .error e => some e.status
  | .ok _ => none

end NewsApp

namespace NewsApp

/-- C1: a create request whose image fails the content-type/extension
allow-list does fail and creates no record, but the response status is
500, not the claimed 400: the `HTTPException(400)` raised by the
validation is caught by the surrounding `except Exception` and re-raised
as `HTTPException(500, "Error during file upload: " + str(e))`.  Here the
code is evaluated at the failing input (a `.gif` upload): the database is
unchanged and no S3 call is made, but the status is 500. -/
theorem c1_invalid_image_rejected_with_500_not_400 :
    create_newsletter_with_image envFix dbEmpty "t" "c" "draft" none none
      (some { filename := "anim.gif", content_type := "image/gif" }) =
    { result := .error
        ⟨500, "Error during file upload: 400: Invalid image. Only JPG and PNG formats are supported."⟩
      db := dbEmpty
      events := [] } := by
  rfl

/-- C2: updating a nonexistent newsletter through the multipart endpoint
does fail without touching any record, but with status 500, not the
claimed 404: the `HTTPException(404, "Newsletter not found")` is caught by
the handler's own `except Exception`, which re-raises
`HTTPException(500, str(e))`.  Evaluated at the failing input (empty
database, id 1). -/
theorem c2_update_missing_newsletter_gives_500_not_404 :
    update_newsletter_with_image envFix dbEmpty 1 (some "T") none none none
      none none =
    { result := .error { status := 500, detail := "404: Newsletter not found" }
      db := dbEmpty
      events := [] } := by
  rfl

/-- Replacing, in a list of rows, every row whose id equals `r.id` by `r`
leaves `find?`-by-that-id returning `r`, provided some row was found
before. -/
theorem find_after_replace (nid : Nat) (r : Newsletter) (hr : r.id = nid) :
    ∀ (l : List Newsletter) (n : Newsletter),
      l.find? (fun m => m.id = nid) = some n →
      (l.map (fun m => if m.id = r.id then r else m)).find?
        (fun m => m.id = nid) = some r := by
  intro l
  induction l with
  | nil => intro n h; simp at h
  | cons a t ih =>
    intro n h
    by_cases ha : a.id = nid
    · rw [List.map_cons, if_pos (by rw [hr]; exact ha)]
      rw [List.find?_cons_of_pos]
      simp [hr]
    · have htail : t.find? (fun m => m.id = nid) = some n := by
        rw [List.find?_cons_of_neg] at h
        · exact h
        · simp [ha]
      rw [List.map_cons, if_neg (by rw [hr]; exact ha), List.find?_cons_of_neg]
      · exact ih n htail
      · simp [ha]

/-- C3: on the multipart update of an existing newsletter with changed
scalar fields and an image, if the upload adapter returns its failure
sentinel (`None`, i.e. the boto3 call raised a `ClientError`), the handler
raises a 500 and the `except Exception` block rolls the session back:
the database — in particular the stored record — is exactly its
pre-request state, whatever scalar fields were provided. -/
theorem c3_failed_upload_prevents_commit (env : Env) (db : DB) (nid : Nat)
    (t c s : Option String) (sd tid : Option Nat) (img : UploadFile)
    (n : Newsletter) (m : String)
    (hfind : findNewsletter db nid = some n)
    (hup : env.uploadCall = .clientError m) :
    (update_newsletter_with_image env db nid t c s sd tid (some img)).db = db ∧
    ∃ d, (update_newsletter_with_image env db nid t c s sd tid (some img)).result =
      Except.error ⟨500, d⟩ := by
  rcases hdel : env.deleteCall with _ | m2 | m2 <;>
    by_cases ht : pyTruthy n.image_url <;>
      simp [update_newsletter_with_image, hfind, hdel, ht,
        delete_file_from_s3, upload_file_to_s3, hup]

/-- C3 witness: concrete instantiation — one stored newsletter, a title
change plus an image whose upload fails with the sentinel; the database
comes back unchanged and the response is a 500. -/
theorem c3_failed_upload_prevents_commit_witness :
    (update_newsletter_with_image { envFix with uploadCall := .clientError "boom" }
        dbOne 1 (some "T2") none none none none
        (some { filename := "pic.jpg", content_type := "image/jpeg" })).db = dbOne ∧
    ∃ d, (update_newsletter_with_image { envFix with uploadCall := .clientError "boom" }
        dbOne 1 (some "T2") none none none none
        (some { filename := "pic.jpg", content_type := "image/jpeg" })).result =
      Except.error ⟨500, d⟩ :=
  c3_failed_upload_prevents_commit _ _ 1 (some "T2") none none none none _ nFix "boom"
    (by decide) rfl

/-- C4: the JSON partial update applied to an existing newsletter returns
(and stores) a record in which each payload field explicitly set —
including set to null — carries exactly the payload's value, and each
payload field omitted carries exactly the pre-update stored value. -/
theorem c4_json_partial_update_frame (env : Env) (db : DB) (nid : Nat)
    (p : NewsletterUpdate) (n : Newsletter)
    (hfind : findNewsletter db nid = some n) :
    ∃ r, (update_newsletter env db nid p).result = .ok r ∧
      findNewsletter (update_newsletter env db nid p).db nid = some r ∧
      (p.title = .absent → r.title = n.title) ∧
      (∀ v, p.title = .set v → r.title = v) ∧
      (p.content = .absent → r.content = n.content) ∧
      (∀ v, p.content = .set v → r.content = v) ∧
      (p.status = .absent → r.status = n.status) ∧
      (∀ v, p.status = .set v → r.status = v) ∧
      (p.scheduled_date = .absent → r.scheduled_date = n.scheduled_date) ∧
      (∀ v, p.scheduled_date = .set v → r.scheduled_date = v) ∧
      (p.template_id = .absent → r.template_id = n.template_id) ∧
      (∀ v, p.template_id = .set v → r.template_id = v) ∧
      (p.image_url = .absent → r.image_url = n.image_url) ∧
      (∀ v, p.image_url = .set v → r.image_url = v) := by
  have hnid : n.id = nid := by simpa using List.find?_some hfind
  have happly0 :
      (p.title = .absent → (applyPatch n p).title = n.title) ∧
      (∀ v, p.title = .set v → (applyPatch n p).title = v) ∧
      (p.content = .absent → (applyPatch n p).content = n.content) ∧
      (∀ v, p.content = .set v → (applyPatch n p).content = v) ∧
      (p.status = .absent → (applyPatch n p).status = n.status) ∧
      (∀ v, p.status = .set v → (applyPatch n p).status = v) ∧
      (p.scheduled_date = .absent → (applyPatch n p).scheduled_date = n.scheduled_date) ∧
      (∀ v, p.scheduled_date = .set v → (applyPatch n p).scheduled_date = v) ∧
      (p.template_id = .absent → (applyPatch n p).template_id = n.template_id) ∧
      (∀ v, p.template_id = .set v → (applyPatch n p).template_id = v) ∧
      (p.image_url = .absent → (applyPatch n p).image_url = n.image_url) ∧
      (∀ v, p.image_url = .set v → (applyPatch n p).image_url = v) := by
    refine ⟨?_, ?_, ?_, ?_, ?_, ?_, ?_, ?_, ?_, ?_, ?_, ?_⟩ <;>
      first
        | (intro h; simp [applyPatch, h])
        | (intro v h; simp [applyPatch, h])
  have heq : update_newsletter env db nid p =
      if applyPatch n p = n then ⟨.ok n, db, []⟩
      else ⟨.ok { applyPatch n p with updated_at := env.now },
            replaceNewsletter db { applyPatch n p with updated_at := env.now }, []⟩ := by
    unfold update_newsletter commitUpdated
    rw [hfind]
    dsimp only
    by_cases hc : applyPatch n p = n
    · simp only [if_pos hc]
    · simp only [if_neg hc]
  rw [heq]
  by_cases hc : applyPatch n p = n
  · rw [if_pos hc]
    rw [hc] at happly0
    exact ⟨n, rfl, hfind, happly0⟩
  · rw [if_neg hc]
    refine ⟨{ applyPatch n p with updated_at := env.now }, rfl, ?_, ?_⟩
    · have hid : ({ applyPatch n p with updated_at := env.now } : Newsletter).id = nid := by
        simp [applyPatch, hnid]
      exact find_after_replace nid _ hid db.newsletters n hfind
    · exact happly0

/-- C4 witness: concrete instantiation — payload setting `title` to null,
`status` to "sent", `image_url` to null, omitting the rest, applied to the
stored fixture newsletter. -/
theorem c4_json_partial_update_frame_witness :
    ∃ r, (update_newsletter envFix dbOne 1
        ⟨.set none, .absent, .set (some "sent"), .absent, .absent, .set none⟩).result = .ok r ∧
      findNewsletter (update_newsletter envFix dbOne 1
        ⟨.set none, .absent, .set (some "sent"), .absent, .absent, .set none⟩).db 1 = some r ∧
      ((⟨.set none, .absent, .set (some "sent"), .absent, .absent, .set none⟩ : NewsletterUpdate).title = .absent → r.title = nFix.title) ∧
      (∀ v, (⟨.set none, .absent, .set (some "sent"), .absent, .absent, .set none⟩ : NewsletterUpdate).title = .set v → r.title = v) ∧
      ((⟨.set none, .absent, .set (some "sent"), .absent, .absent, .set none⟩ : NewsletterUpdate).content = .absent → r.content = nFix.content) ∧
      (∀ v, (⟨.set none, .absent, .set (some "sent"), .absent, .absent, .set none⟩ : NewsletterUpdate).content = .set v → r.content = v) ∧
      ((⟨.set none, .absent, .set (some "sent"), .absent, .absent, .set none⟩ : NewsletterUpdate).status = .absent → r.status = nFix.status) ∧
      (∀ v, (⟨.set none, .absent, .set (some "sent"), .absent, .absent, .set none⟩ : NewsletterUpdate).status = .set v → r.status = v) ∧
      ((⟨.set none, .absent, .set (some "sent"), .absent, .absent, .set none⟩ : NewsletterUpdate).scheduled_date = .absent → r.scheduled_date = nFix.scheduled_date) ∧
      (∀ v, (⟨.set none, .absent, .set (some "sent"), .absent, .absent, .set none⟩ : NewsletterUpdate).scheduled_date = .set v → r.scheduled_date = v) ∧
      ((⟨.set none, .absent, .set (some "sent"), .absent, .absent, .set none⟩ : NewsletterUpdate).template_id = .absent → r.template_id = nFix.template_id) ∧
      (∀ v, (⟨.set none, .absent, .set (some "sent"), .absent, .absent, .set none⟩ : NewsletterUpdate).template_id = .set v → r.template_id = v) ∧
      ((⟨.set none, .absent, .set (some "sent"), .absent, .absent, .set none⟩ : NewsletterUpdate).image_url = .absent → r.image_url = nFix.image_url) ∧
      (∀ v, (⟨.set none, .absent, .set (some "sent"), .absent, .absent, .set none⟩ : NewsletterUpdate).image_url = .set v → r.image_url = v) :=
  c4_json_partial_update_frame envFix dbOne 1
    ⟨.set none, .absent, .set (some "sent"), .absent, .absent, .set none⟩ nFix (by decide)

/-- Destructuring a pair into an `Outcome` is the same as projecting it:
lets the success-commit branch of the multipart update reduce when the
commit pair is not yet a literal. -/
theorem match_pair_outcome (p : Newsletter × DB) (ev : List S3Event) :
    (match p with
     | (n2, db2) => ({ result := Except.ok n2, db := db2, events := ev } : Outcome Newsletter)) =
    { result := Except.ok p.1, db := p.2, events := ev } := by
  rcases p with ⟨a, b⟩
  rfl

/-- C5 counterexample: the storage adapter does NOT convert every failure
to a sentinel.  When the underlying boto3 call raises anything other than
a `ClientError` (here: a connection error), both `upload_file_to_s3` and
`delete_file_from_s3` propagate the exception to their caller instead of
returning `None` / `False`. -/
theorem c5_adapter_propagates_non_clienterror :
    upload_file_to_s3 (.otherExn "Could not connect to the endpoint URL") "bkt" "reg" "k" =
      .error "Could not connect to the endpoint URL" ∧
    delete_file_from_s3 (.otherExn "Could not connect to the endpoint URL") "k" =
      .error "Could not connect to the endpoint URL" := by
  exact ⟨rfl, rfl⟩

/-- C5 amended: the adapter converts exactly `ClientError` failures to
sentinels — on success `upload` returns the public URL and `delete`
returns `True`; on a `ClientError` they return `None` and `False`
respectively, raising nothing; exceptions of any other kind propagate. -/
theorem c5_adapter_sentinels_cover_clienterror (bucket region key m : String) :
    upload_file_to_s3 .success bucket region key =
      .ok (some ("https://" ++ bucket ++ ".s3." ++ region ++ ".amazonaws.com/" ++ key)) ∧
    upload_file_to_s3 (.clientError m) bucket region key = .ok none ∧
    delete_file_from_s3 .success key = .ok true ∧
    delete_file_from_s3 (.clientError m) key = .ok false ∧
    upload_file_to_s3 (.otherExn m) bucket region key = .error m ∧
    delete_file_from_s3 (.otherExn m) key = .error m := by
  exact ⟨rfl, rfl, rfl, rfl, rfl, rfl⟩

/-- C6 counterexample, two concrete inputs.  First: the handler keys its
storage-delete on Python truthiness, not nullness — a stored newsletter
whose `image_url` is the empty string (non-null, reachable through the
JSON update path) is deleted WITHOUT any storage-delete call, although the
claim requires the call for every non-null `image_url`.  Second: when the
storage delete raises a non-ClientError exception (the adapter catches
only ClientError), the delete IS invoked but the request fails and the
record is NOT deleted, although the claim asserts "the record is then
deleted and the transaction committed". -/
theorem c6_empty_url_skips_storage_delete :
    (findNewsletter dbEmptyUrl 1 = some nEmptyUrl ∧
     nEmptyUrl.image_url ≠ none ∧
     (delete_newsletter envFix dbEmptyUrl 1).result = .ok "Newsletter deleted successfully" ∧
     (delete_newsletter envFix dbEmptyUrl 1).events = []) ∧
    (findNewsletter dbOne 1 = some nFix ∧
     nFix.image_url ≠ none ∧
     (delete_newsletter { envFix with deleteCall := .otherExn "conn reset" } dbOne 1).events =
       [S3Event.delete "old.png"] ∧
     (delete_newsletter { envFix with deleteCall := .otherExn "conn reset" } dbOne 1).result =
       .error ⟨500, "conn reset"⟩ ∧
     (delete_newsletter { envFix with deleteCall := .otherExn "conn reset" } dbOne 1).db =
       dbOne) := by
  decide

/-- C6 amended: on DELETE /newsletters/{id}, a missing record gives a 404
with no state change.  Otherwise, when the stored `image_url` is null or
empty (Python-falsy), the record is deleted and committed without any
storage call; when it is non-null and non-empty, a single best-effort
storage delete is invoked on the trailing URL segment and then the record
is deleted and committed — unless that storage call itself raises a
non-ClientError exception, in which case the request fails and nothing is
committed: the database is unchanged. -/
theorem c6_delete_newsletter_spec (env : Env) (db : DB) (nid : Nat) :
    (findNewsletter db nid = none →
      delete_newsletter env db nid =
        { result := .error ⟨404, "Newsletter not found"⟩, db := db, events := [] }) ∧
    (∀ n, findNewsletter db nid = some n → pyTruthy n.image_url = false →
      delete_newsletter env db nid =
        { result := .ok "Newsletter deleted successfully"
          db := { db with newsletters := db.newsletters.filter (fun m => m.id ≠ nid) }
          events := [] }) ∧
    (∀ n, findNewsletter db nid = some n → pyTruthy n.image_url = true →
      (∀ m, env.deleteCall = S3CallResult.otherExn m →
        delete_newsletter env db nid =
          { result := .error ⟨500, m⟩
            db := db
            events := [S3Event.delete (lastSegment (n.image_url.getD ""))] }) ∧
      ((∀ m, env.deleteCall ≠ S3CallResult.otherExn m) →
        delete_newsletter env db nid =
          { result := .ok "Newsletter deleted successfully"
            db := { db with newsletters := db.newsletters.filter (fun m => m.id ≠ nid) }
            events := [S3Event.delete (lastSegment (n.image_url.getD ""))] })) := by
  refine ⟨?_, ?_, ?_⟩
  · intro h
    simp [delete_newsletter, h]
  · intro n h ht
    simp [delete_newsletter, h, ht]
  · intro n h ht
    constructor
    · intro m hm
      simp [delete_newsletter, h, ht, hm, delete_file_from_s3]
    · intro hne
      rcases hd : env.deleteCall with _ | m | m
      · simp [delete_newsletter, h, ht, hd, delete_file_from_s3]
      · simp [delete_newsletter, h, ht, hd, delete_file_from_s3]
      · exact absurd hd (hne m)

/-- C6 witness: deleting the fixture newsletter (image at `.../old.png`)
in a healthy environment removes the record, commits, and fires exactly
one storage delete on key "old.png"; with a raising storage delete, the
same request fails with a 500 after invoking the delete, and the database
is untouched. -/
theorem c6_delete_newsletter_spec_witness :
    (delete_newsletter envFix dbOne 1 =
      { result := .ok "Newsletter deleted successfully"
        db := { dbOne with newsletters := [] }
        events := [S3Event.delete "old.png"] }) ∧
    (delete_newsletter { envFix with deleteCall := .otherExn "conn reset" } dbOne 1 =
      { result := .error ⟨500, "conn reset"⟩
        db := dbOne
        events := [S3Event.delete "old.png"] }) := by
  constructor
  · have h := ((c6_delete_newsletter_spec envFix dbOne 1).2.2 nFix
      (by decide) (by decide)).2 (by intro m; simp [envFix])
    rw [h]
    decide
  · have h := ((c6_delete_newsletter_spec
      { envFix with deleteCall := .otherExn "conn reset" } dbOne 1).2.2 nFix
      (by decide) (by decide)).1 "conn reset" rfl
    rw [h]
    decide

/-- C7 counterexample: GET /newsletters/{id}/image answers 404 for a
record whose `image_url` is the empty string — non-null — even though the
storage backend is healthy; the claim's "otherwise" branch requires a
fetch-and-stream there. -/
theorem c7_empty_url_gives_404 :
    findNewsletter dbEmptyUrl 1 = some nEmptyUrl ∧
    nEmptyUrl.image_url ≠ none ∧
    envFix.getObject = .ok "BODY" "image/png" ∧
    (get_newsletter_image envFix dbEmptyUrl 1).result = .error ⟨404, "Image not found"⟩ ∧
    (get_newsletter_image envFix dbEmptyUrl 1).events = [] := by
  decide

/-- C7 amended: GET /newsletters/{id}/image answers 404 when the record is
absent or its `image_url` is null OR empty; otherwise it calls storage on
the URL's trailing path segment and either streams the blob back with the
content-type reported by storage, or answers 500 when the storage fetch
raises. -/
theorem c7_get_image_spec (env : Env) (db : DB) (nid : Nat) :
    (findNewsletter db nid = none →
      get_newsletter_image env db nid =
        { result := .error ⟨404, "Image not found"⟩, db := db, events := [] }) ∧
    (∀ n, findNewsletter db nid = some n → pyTruthy n.image_url = false →
      get_newsletter_image env db nid =
        { result := .error ⟨404, "Image not found"⟩, db := db, events := [] }) ∧
    (∀ n, findNewsletter db nid = some n → pyTruthy n.image_url = true →
      (∀ body ct, env.getObject = .ok body ct →
        get_newsletter_image env db nid =
          { result := .ok ⟨body, ct⟩, db := db
            events := [S3Event.getObject (lastSegment (n.image_url.getD ""))] }) ∧
      (∀ m, env.getObject = .exn m →
        get_newsletter_image env db nid =
          { result := .error ⟨500, "Failed to stream image: " ++ m⟩, db := db
            events := [S3Event.getObject (lastSegment (n.image_url.getD ""))] })) := by
  refine ⟨?_, ?_, ?_⟩
  · intro h
    simp [get_newsletter_image, h]
  · intro n h ht
    simp [get_newsletter_image, h, ht]
  · intro n h ht
    constructor
    · intro body ct hg
      simp [get_newsletter_image, h, ht, hg]
    · intro m hg
      simp [get_newsletter_image, h, ht, hg]

/-- C7 witness: fetching the image of the fixture newsletter streams the
blob with the storage-reported content type, keyed on "old.png". -/
theorem c7_get_image_spec_witness :
    get_newsletter_image envFix dbOne 1 =
      { result := .ok ⟨"BODY", "image/png"⟩, db := dbOne
        events := [S3Event.getObject "old.png"] } := by
  have h := ((c7_get_image_spec envFix dbOne 1).2.2 nFix (by decide) (by decide)).1
    "BODY" "image/png" rfl
  rw [h]
  decide

/-- C8 counterexample: deleting a Template does NOT leave referencing
Newsletters unchanged.  On `db.delete(template)` SQLAlchemy's default
relationship cascade de-associates the children: the referencing
newsletter survives, but its `template_id` is set to NULL (and its
`updated_at` refreshed), not kept as a dangling value. -/
theorem c8_template_delete_nullifies_reference :
    nFix.template_id = some 1 ∧
    (delete_template envFix dbOne 1).result = .ok "Template deleted successfully" ∧
    findNewsletter (delete_template envFix dbOne 1).db 1 =
      some { nFix with template_id := none, updated_at := 7 } ∧
    ¬ findNewsletter (delete_template envFix dbOne 1).db 1 = some nFix := by
  decide

/-- C8 amended: DELETE /templates/{id} answers 404 and changes nothing
when the template is absent; otherwise it removes the template row and no
Newsletter row is deleted (the table keeps its length), but every
referencing newsletter is de-associated — `template_id` set to NULL and
`updated_at` refreshed — while non-referencing newsletters are
bit-identical. -/
theorem c8_delete_template_spec (env : Env) (db : DB) (tid : Nat) :
    (findTemplate db tid = none →
      delete_template env db tid =
        { result := .error ⟨404, "Template not found"⟩, db := db, events := [] }) ∧
    (∀ t, findTemplate db tid = some t →
      (delete_template env db tid).result = .ok "Template deleted successfully" ∧
      (delete_template env db tid).db.newsletters =
        db.newsletters.map (fun n =>
          if n.template_id = some tid then
            { n with template_id := none, updated_at := env.now }
          else n) ∧
      (delete_template env db tid).db.newsletters.length = db.newsletters.length ∧
      (delete_template env db tid).db.templates =
        db.templates.filter (fun t2 => t2.id ≠ tid) ∧
      (delete_template env db tid).events = []) := by
  constructor
  · intro h
    simp [delete_template, h]
  · intro t h
    refine ⟨?_, ?_, ?_, ?_, ?_⟩ <;> simp [delete_template, h]

/-- C8 witness: deleting the fixture template succeeds and rewrites the
referencing newsletter to carry `template_id = NULL`. -/
theorem c8_delete_template_spec_witness :
    (delete_template envFix dbOne 1).result = .ok "Template deleted successfully" ∧
    (delete_template envFix dbOne 1).db.newsletters =
      dbOne.newsletters.map (fun n =>
        if n.template_id = some 1 then
          { n with template_id := none, updated_at := envFix.now }
        else n) ∧
    (delete_template envFix dbOne 1).db.newsletters.length = dbOne.newsletters.length :=
  have h := (c8_delete_template_spec envFix dbOne 1).2
    { id := 1, name := some "Promo", content := some "x", created_at := 2, updated_at := 2 }
    (by decide)
  ⟨h.1, h.2.1, h.2.2.1⟩

/-- C9 counterexample: the storage key is generated from `datetime.now()`
— the server-local clock — not from a UTC timestamp.  On a host whose
local clock differs from UTC (here local = UTC − 5h), a valid create
uploads under the local-time key, which differs from the key the claim
specifies. -/
theorem c9_key_uses_local_clock_not_utc :
    (create_newsletter_with_image envFix dbEmpty "t" "c" "draft" none none
      (some { filename := "pic.jpg", content_type := "image/jpeg" })).events =
      [S3Event.upload ("newsletter_" ++ envFix.localNow ++ ".jpg")] ∧
    envFix.localNow ≠ envFix.utcNow ∧
    ("newsletter_" ++ envFix.localNow ++ ".jpg") ≠
      ("newsletter_" ++ envFix.utcNow ++ ".jpg") := by
  decide

/-- C9 amended: for every create whose image passes validation and whose
upload succeeds, the storage key is exactly "newsletter_" ++ the
SERVER-LOCAL timestamp rendered to the second ++ the original filename's
extension, and the created record's `image_url` is exactly the URL the
upload adapter returned for that key. -/
theorem c9_create_key_and_url (env : Env) (db : DB)
    (title content status : String) (sd tid : Option Nat) (img : UploadFile)
    (hct : img.content_type ∈ ["image/jpeg", "image/png"])
    (hext : strLower (splitext_ext img.filename) ∈ [".jpg", ".jpeg", ".png"])
    (hup : env.uploadCall = .success) :
    (create_newsletter_with_image env db title content status sd tid (some img)).events =
      [S3Event.upload ("newsletter_" ++ env.localNow ++ splitext_ext img.filename)] ∧
    ∃ r, (create_newsletter_with_image env db title content status sd tid (some img)).result =
        .ok r ∧
      upload_file_to_s3 env.uploadCall env.bucket env.region
          ("newsletter_" ++ env.localNow ++ splitext_ext img.filename) =
        .ok (some ("https://" ++ env.bucket ++ ".s3." ++ env.region ++ ".amazonaws.com/" ++
          ("newsletter_" ++ env.localNow ++ splitext_ext img.filename))) ∧
      r.image_url =
        some ("https://" ++ env.bucket ++ ".s3." ++ env.region ++ ".amazonaws.com/" ++
          ("newsletter_" ++ env.localNow ++ splitext_ext img.filename)) := by
  have hcond : ¬ (img.content_type ∉ ["image/jpeg", "image/png"] ∨
      strLower (splitext_ext img.filename) ∉ [".jpg", ".jpeg", ".png"]) := by
    push_neg
    exact ⟨hct, hext⟩
  simp only [create_newsletter_with_image, if_neg hcond, hup, upload_file_to_s3,
    insertCommit]
  refine ⟨?_, _, rfl, ?_, ?_⟩ <;> simp [upload_file_to_s3]

/-- C9 witness: a valid `.jpg` create in the fixture environment uploads
under key "newsletter_20250101_000000.jpg" and stores the adapter URL. -/
theorem c9_create_key_and_url_witness :
    (create_newsletter_with_image envFix dbEmpty "t" "c" "draft" none none
      (some { filename := "pic.jpg", content_type := "image/jpeg" })).events =
      [S3Event.upload ("newsletter_" ++ envFix.localNow ++ splitext_ext "pic.jpg")] ∧
    ∃ r, (create_newsletter_with_image envFix dbEmpty "t" "c" "draft" none none
        (some { filename := "pic.jpg", content_type := "image/jpeg" })).result = .ok r ∧
      upload_file_to_s3 envFix.uploadCall envFix.bucket envFix.region
          ("newsletter_" ++ envFix.localNow ++ splitext_ext "pic.jpg") =
        .ok (some ("https://" ++ envFix.bucket ++ ".s3." ++ envFix.region ++
          ".amazonaws.com/" ++ ("newsletter_" ++ envFix.localNow ++ splitext_ext "pic.jpg"))) ∧
      r.image_url =
        some ("https://" ++ envFix.bucket ++ ".s3." ++ envFix.region ++
          ".amazonaws.com/" ++ ("newsletter_" ++ envFix.localNow ++ splitext_ext "pic.jpg")) :=
  c9_create_key_and_url envFix dbEmpty "t" "c" "draft" none none
    { filename := "pic.jpg", content_type := "image/jpeg" }
    (by decide) (by decide) rfl

/-- C10: the multipart update performs no image validation at all.  For an
existing newsletter and ANY image (any declared content-type, any
extension — e.g. image/gif, .gif), no outcome of the request is a 400;
and, provided the old-blob storage delete does not itself raise, the
handler proceeds to delete the old blob (exactly when the stored
`image_url` is truthy) and then to upload the new image under the
generated key — the unvalidated extension included. -/
theorem c10_update_never_validates_image (env : Env) (db : DB) (nid : Nat)
    (t c s : Option String) (sd tid : Option Nat) (img : UploadFile)
    (n : Newsletter)
    (hfind : findNewsletter db nid = some n) :
    errStatus (update_newsletter_with_image env db nid t c s sd tid (some img)).result ≠
      some 400 ∧
    ((∀ m, env.deleteCall ≠ S3CallResult.otherExn m) →
      (update_newsletter_with_image env db nid t c s sd tid (some img)).events =
        (if pyTruthy n.image_url then
          [S3Event.delete (lastSegment (n.image_url.getD ""))]
         else []) ++
        [S3Event.upload ("newsletter_" ++ env.localNow ++ splitext_ext img.filename)]) := by
  constructor
  · rcases hd : env.deleteCall with _ | m1 | m1 <;>
      rcases hu : env.uploadCall with _ | m2 | m2 <;>
        by_cases ht : pyTruthy n.image_url <;>
          simp [update_newsletter_with_image, hfind, hd, hu, ht, errStatus,
            delete_file_from_s3, upload_file_to_s3, match_pair_outcome]
  · intro hdelOk
    rcases hd : env.deleteCall with _ | m1 | m1
    · rcases hu : env.uploadCall with _ | m2 | m2 <;>
        by_cases ht : pyTruthy n.image_url <;>
          simp [update_newsletter_with_image, hfind, hd, hu, ht,
            delete_file_from_s3, upload_file_to_s3, match_pair_outcome]
    · rcases hu : env.uploadCall with _ | m2 | m2 <;>
        by_cases ht : pyTruthy n.image_url <;>
          simp [update_newsletter_with_image, hfind, hd, hu, ht,
            delete_file_from_s3, upload_file_to_s3, match_pair_outcome]
    · exact absurd hd (hdelOk m1)

/-- C10 witness: updating the fixture newsletter with a `.gif` image in a
healthy environment deletes the old blob, uploads the gif under the
generated key, and does not answer 400. -/
theorem c10_update_never_validates_image_witness :
    errStatus (update_newsletter_with_image envFix dbOne 1 none none none none none
      (some { filename := "anim.gif", content_type := "image/gif" })).result ≠ some 400 ∧
    (update_newsletter_with_image envFix dbOne 1 none none none none none
      (some { filename := "anim.gif", content_type := "image/gif" })).events =
      (if pyTruthy nFix.image_url then
        [S3Event.delete (lastSegment (nFix.image_url.getD ""))]
       else []) ++
      [S3Event.upload ("newsletter_" ++ envFix.localNow ++ splitext_ext "anim.gif")] :=
  have h := c10_update_never_validates_image envFix dbOne 1 none none none none none
    { filename := "anim.gif", content_type := "image/gif" } nFix (by decide)
  ⟨h.1, h.2 (by intro m; simp [envFix])⟩

end NewsApp
